import Mathlib

/-!
Verification development for the guarded SQL execution gateway
(`query_executor.py`): a lexical statement validator, a WHERE-clause
predicate builder with mandatory tenant-isolation filters, and an
execution gateway over a relational store.

The Python source is shallowly embedded: strings are `String`, Python
lists are `List`, dictionaries with a known key set become structures,
`None`-able values become `Option`, and the store/connection behaviour
of the execution gateway is an explicit oracle record.  Python integer
arithmetic is `Int`.  Helper functions reproduce the exact semantics of
the Python primitives used by the source (`str.count`, `str.strip`,
`str.split`, `in`, `re.sub` literal stripping, and the handful of fixed
`re.search` patterns of the validator).
-/

namespace SqlExec

/-! ## Python string primitives -/

/-- The single-quote character `'` (code point 39). -/
def squote : Char := Char.ofNat 39

/-- The double-quote character `"` (code point 34). -/
def dquote : Char := Char.ofNat 34

/-- The backslash character `\` (code point 92). -/
def bslash : Char := Char.ofNat 92

/-- Python whitespace for `str.strip` and the regex class `\s`
(space, tab, newline, carriage return, vertical tab, form feed). -/
def pyWs (c : Char) : Bool :=
  c == ' ' || c == Char.ofNat 9 || c == Char.ofNat 10 ||
  c == Char.ofNat 13 || c == Char.ofNat 11 || c == Char.ofNat 12

/-- Python `str.strip()` on a character list: drop leading and trailing
whitespace. -/
def pyStripList (l : List Char) : List Char :=
  ((l.dropWhile pyWs).reverse.dropWhile pyWs).reverse

/-- Python `str.strip()`. -/
def pyStrip (s : String) : String := ⟨pyStripList s.data⟩

/-- Python `s.upper()` (character-wise ASCII upper-casing). -/
def pyUpper (s : String) : String := ⟨s.data.map Char.toUpper⟩

/-- Python `s.lower()` (character-wise ASCII lower-casing). -/
def pyLower (s : String) : String := ⟨s.data.map Char.toLower⟩

/-- Python `needle in hay` substring containment on character lists. -/
def containsSub : List Char → List Char → Bool
  | [], needle => needle.isEmpty
  | c :: rest, needle => needle.isPrefixOf (c :: rest) || containsSub rest needle

/-- Worker for `countSub`: the `Nat` state is the number of characters
still to be skipped because they belong to an already-counted match. -/
def countSubAux (pat : List Char) : List Char → Nat → Nat
  | [], _ => 0
  | c :: rest, 0 =>
    if pat ≠ [] && pat.isPrefixOf (c :: rest) then
      countSubAux pat rest (pat.length - 1) + 1
    else
      countSubAux pat rest 0
  | _ :: rest, k + 1 => countSubAux pat rest k

/-- Python `hay.count(pat)` for a non-empty pattern: non-overlapping
occurrences, scanning left to right. -/
def countSub (pat s : List Char) : Nat := countSubAux pat s 0

/-- Worker for `pySplit`: the `Nat` state is the number of separator
characters still to be discarded after a separator match. -/
def pySplitAux (sep : List Char) : List Char → Nat → List (List Char)
  | [], _ => [[]]
  | c :: rest, 0 =>
    if sep ≠ [] && sep.isPrefixOf (c :: rest) then
      [] :: pySplitAux sep rest (sep.length - 1)
    else
      match pySplitAux sep rest 0 with
      | [] => [[c]]
      | g :: gs => (c :: g) :: gs
  | _ :: rest, k + 1 => pySplitAux sep rest k

/-- Python `s.split(sep)` for a non-empty separator. -/
def pySplit (sep : String) (s : String) : List String :=
  (pySplitAux sep.data s.data 0).map (fun l => ⟨l⟩)

/-- Python `sep.join(l)`. -/
def pyJoin (sep : String) : List String → String
  | [] => ""
  | [a] => a
  | a :: b :: rest => a ++ sep ++ pyJoin sep (b :: rest)

/-! ## Statement Validator (`QueryExecutor._validate_query` and helpers) -/

/-- Validation result dictionary `{'safe': ..., 'reason': ...}`. -/
structure ValidationResult where
  safe : Bool
  reason : Option String
deriving DecidableEq, Repr

/-- The fixed denylist from `QueryExecutor.__init__`. -/
def dangerous_keywords : List String :=
  ["DROP", "TRUNCATE", "EXEC", "EXECUTE", "SCRIPT", "SHUTDOWN", "GRANT", "REVOKE"]

/-- One pass of `re.sub(r"q[^q]*q", "qq", text)` for a quote character
`q`: replace every leftmost-shortest quoted run by an empty pair of
quotes.  The second argument is `none` outside a candidate literal and
`some pending` (reversed consumed characters) after an opening quote
whose closing quote has not yet been seen; an unclosed opening quote is
restored verbatim, matching the regex, which simply does not match
there. -/
def stripQAux (q : Char) : List Char → Option (List Char) → List Char
  | [], none => []
  | [], some pending => q :: pending.reverse
  | c :: rest, none =>
    if c == q then stripQAux q rest (some [])
    else c :: stripQAux q rest none
  | c :: rest, some pending =>
    if c == q then q :: q :: stripQAux q rest none
    else stripQAux q rest (some (c :: pending))

/-- `QueryExecutor._remove_string_literals`: first collapse `'...'`
runs, then `"..."` runs on the result. -/
def _remove_string_literals (s : String) : String :=
  ⟨stripQAux dquote (stripQAux squote s.data none) none⟩

/-- Python `s.endswith(';')`: the last character is a semicolon. -/
def endsWithSemi (s : String) : Bool :=
  match s.data.getLast? with
  | some c => c == ';'
  | none => false

/-- `QueryExecutor._has_multiple_statements`: strip string literals,
then flag when a `;` remains and the stripped text does not end
(after trimming) with `;`. -/
def _has_multiple_statements (s : String) : Bool :=
  let cleaned := _remove_string_literals s
  cleaned.data.contains ';' && !(endsWithSemi (pyStrip cleaned))

/-- `QueryExecutor._balanced_quotes`: both quote counts, discounting the
backslash-escaped two-character sequences, must be even. -/
def _balanced_quotes (s : String) : Bool :=
  let sq : Int := (countSub [squote] s.data : Int) - (countSub [bslash, squote] s.data : Int)
  let dq : Int := (countSub [dquote] s.data : Int) - (countSub [bslash, dquote] s.data : Int)
  sq % 2 == 0 && dq % 2 == 0

/-- Token of the fixed suspicious-pattern regexes: a literal run, `\s*`,
`\s+`, or `.*` (dot not matching newline). -/
inductive Tok where
  | lit (cs : List Char)
  | wsStar
  | wsPlus
  | dotStar

/-- All suffixes of a character list reachable by consuming zero or
more whitespace characters from the front (for `\s*`). -/
def wsSuffixes : List Char → List (List Char)
  | [] => [[]]
  | c :: cs => (c :: cs) :: (if pyWs c then wsSuffixes cs else [])

/-- All suffixes reachable by consuming zero or more non-newline
characters from the front (for `.*`, where `.` does not match `\n`). -/
def dotSuffixes : List Char → List (List Char)
  | [] => [[]]
  | c :: cs => (c :: cs) :: (if !(c == Char.ofNat 10) then dotSuffixes cs else [])

/-- Match a token sequence against the beginning of a character list
(the rest of the list may remain unconsumed, as with `re.search`).
Computes existence of a match, which is what `re.search` reports. -/
def matchToks : List Tok → List Char → Bool
  | [], _ => true
  | Tok.lit l :: ts, cs => l.isPrefixOf cs && matchToks ts (cs.drop l.length)
  | Tok.wsStar :: ts, cs => (wsSuffixes cs).any (fun rest => matchToks ts rest)
  | Tok.wsPlus :: _, [] => false
  | Tok.wsPlus :: ts, c :: cs =>
    pyWs c && (wsSuffixes cs).any (fun rest => matchToks ts rest)
  | Tok.dotStar :: ts, cs => (dotSuffixes cs).any (fun rest => matchToks ts rest)

/-- `re.search`: try a match at every starting position. -/
def reSearch (p : List Tok) : List Char → Bool
  | [] => matchToks p []
  | c :: cs => matchToks p (c :: cs) || reSearch p cs

/-- The suspicious patterns of `_validate_query`, pre-lowered because
they are applied with `re.IGNORECASE` (the embedding matches them
against the lower-cased text). -/
def suspicious_patterns : List (List Tok) :=
  [ [Tok.lit "union".data, Tok.wsPlus, Tok.lit "select".data],
    [Tok.lit [';'], Tok.wsStar, Tok.lit "drop".data],
    [Tok.lit [';'], Tok.wsStar, Tok.lit "delete".data],
    [Tok.lit [';'], Tok.wsStar, Tok.lit "update".data],
    [Tok.lit [';'], Tok.wsStar, Tok.lit "insert".data],
    [Tok.lit ['1'], Tok.wsStar, Tok.lit ['='], Tok.wsStar, Tok.lit ['1']],
    [Tok.lit [squote], Tok.dotStar, Tok.lit "or".data, Tok.dotStar,
     Tok.lit [squote], Tok.dotStar, Tok.lit ['='], Tok.dotStar, Tok.lit [squote]] ]

/-- `QueryExecutor._validate_query`: dangerous-keyword scan, then
multiple-statement check, comment check, quote balance, and the
suspicious-pattern scan, short-circuiting on the first failure. -/
def _validate_query (sql : String) : ValidationResult :=
  let query_upper := pyUpper sql
  match dangerous_keywords.find? (fun kw => containsSub query_upper.data kw.data) with
  | some kw =>
    ⟨false, some ("Query contains potentially dangerous keyword: " ++ kw)⟩
  | none =>
    if _has_multiple_statements sql then
      ⟨false, some "Multiple SQL statements detected. Only single statements are allowed."⟩
    else if containsSub sql.data "--".data || containsSub sql.data "/*".data then
      ⟨false, some "SQL comments detected. Comments are not allowed for security."⟩
    else if !_balanced_quotes sql then
      ⟨false, some "Unbalanced quotes detected. Possible SQL injection attempt."⟩
    else if suspicious_patterns.any (fun p => reSearch p (pyLower sql).data) then
      ⟨false, some "Suspicious pattern detected: possible SQL injection attempt"⟩
    else
      ⟨true, none⟩

/-! ## Predicate Builder (`fix_build_where_clause`)

The builder is a method on the SQL generator object; its relevant state
(`self.parameters`, `self.assumptions`) is made explicit as a `Builder`
record that the function threads.  The two helper methods it calls,
`self._build_date_condition` and `self._find_column_table`, are external
collaborators not present in this source file, so the embedding is
parameterised over them (`DateCond`, `FindTbl`).  Schema metadata is
the external mapping `{table: {columns: [{name, ...}, ...]}}`, reduced
to the column-name lists since only `col['name']` is ever read; absence
of the `schema` attribute and a falsy (`None`) schema are both `none`,
a present-but-empty dictionary is `some []`. -/

/-- One parsed condition `{field, operator, value}` (values are modelled
as strings, the only operations applied to them are string operations). -/
structure Condition where
  field : String
  operator : String
  value : String
deriving DecidableEq, Repr

/-- The consumed `ParsedQuery`: table list, condition list, and the
`user_filters` mapping, which by the data-model invariant always holds
its two keys `user_id` and `company_name`. -/
structure ParsedQuery where
  tables : List String
  conditions : List Condition
  user_filters_user_id : String
  user_filters_company_name : String
deriving DecidableEq, Repr

/-- Mutable accumulator state of the builder instance. -/
structure Builder where
  parameters : List String
  assumptions : List String
deriving DecidableEq, Repr

/-- A fresh builder, as created per query request. -/
def emptyBuilder : Builder := ⟨[], []⟩

/-- Schema metadata: table name to list of column names. -/
abbrev Schema := List (String × List String)

/-- External `self._build_date_condition`: may produce a clause. -/
abbrev DateCond := Condition → Option String

/-- External `self._find_column_table field tables schema`. -/
abbrev FindTbl := String → List String → Option Schema → Option String

/-- Dictionary lookup `schema[table]['columns']` guarded by
`table in schema`. -/
def lookupTable (s : Schema) (t : String) : Option (List String) :=
  (s.find? (fun p => p.1 == t)).map (fun p => p.2)

/-- Lines 153-164: determine which tables carry both `user_id` and
`company_name` columns; without (truthy) schema metadata fall back to
the first table only. -/
def tablesWithFilters (schema : Option Schema) (tables : List String) : List String :=
  match schema with
  | some s =>
    if s.isEmpty then tables.take 1
    else
      tables.filter (fun t =>
        match lookupTable s t with
        | some cols => cols.contains "user_id" && cols.contains "company_name"
        | none => false)
  | none => tables.take 1

/-- Loop body of lines 167-181: the two mandatory isolation predicates
for one filterable table, table-qualified exactly when the query joins
more than one table, with their two bound parameters (`user_id` first). -/
def isoEmit (parsed : ParsedQuery) (t : String) : List String × List String :=
  if parsed.tables.length > 1 then
    ([t ++ ".user_id = ?", t ++ ".company_name = ?"],
     [parsed.user_filters_user_id, parsed.user_filters_company_name])
  else
    (["user_id = ?", "company_name = ?"],
     [parsed.user_filters_user_id, parsed.user_filters_company_name])

/-- Lines 191-196: for a join, a field without an explicit table prefix
is qualified with the owning table resolved by `_find_column_table`
(when that helper returns a truthy table name). -/
def resolveField (ft : FindTbl) (schema : Option Schema) (parsed : ParsedQuery)
    (c : Condition) : String :=
  if parsed.tables.length > 1 && !(c.field.data.contains '.') then
    match ft c.field parsed.tables schema with
    | some t => if t.isEmpty then c.field else t ++ "." ++ c.field
    | none => c.field
  else c.field

/-- Loop body of lines 186-224: translate one parsed condition into its
emitted predicate strings and appended parameters. -/
def condEmit (dc : DateCond) (ft : FindTbl) (schema : Option Schema)
    (parsed : ParsedQuery) (c : Condition) : List String × List String :=
  let field := resolveField ft schema parsed c
  if c.operator == "date_condition" then
    match dc c with
    | some d => if d.isEmpty then ([], []) else ([d], [])
    | none => ([], [])
  else if c.operator == "raw_condition" then
    ([c.value], [])
  else if c.operator == "IS NULL" || c.operator == "IS NOT NULL" then
    ([field ++ " " ++ c.operator], [])
  else if c.operator == "LIKE" then
    ([field ++ " LIKE ?"], ["%" ++ c.value ++ "%"])
  else if c.operator == "IN" then
    let values := (pySplit "," c.value).map pyStrip
    let placeholders := pyJoin ", " (values.map (fun _ => "?"))
    ([field ++ " IN (" ++ placeholders ++ ")"], values)
  else if c.operator == "BETWEEN" then
    if containsSub (pyLower c.value).data " and ".data then
      let parts := pySplit " and " (pyLower c.value)
      ([field ++ " BETWEEN ? AND ?"],
       [pyStrip (parts.getD 0 ""), pyStrip (parts.getD 1 "")])
    else
      ([field ++ " " ++ c.operator ++ " ?"], [c.value])
  else
    ([field ++ " " ++ c.operator ++ " ?"], [c.value])

/-- The audit note recorded (unconditionally) at line 183. -/
def isolationNote : String :=
  "Added mandatory user and company filters for data isolation"

/-- `fix_build_where_clause(self, parsed)`: emit mandatory isolation
predicates for every filterable table, record one audit note, translate
the parsed conditions in order, and join everything with `AND` under a
`WHERE` keyword (empty string when there is no predicate at all). -/
def fix_build_where_clause (dc : DateCond) (ft : FindTbl) (schema : Option Schema)
    (parsed : ParsedQuery) (b : Builder) : String × Builder :=
  let twf := tablesWithFilters schema parsed.tables
  let iso := twf.foldl
    (fun acc t => (acc.1 ++ (isoEmit parsed t).1, acc.2 ++ (isoEmit parsed t).2))
    (([], []) : List String × List String)
  let cnd := parsed.conditions.foldl
    (fun acc c => (acc.1 ++ (condEmit dc ft schema parsed c).1,
                   acc.2 ++ (condEmit dc ft schema parsed c).2))
    (([], []) : List String × List String)
  let allConds := iso.1 ++ cnd.1
  (if allConds.isEmpty then "" else "WHERE " ++ pyJoin " AND " allConds,
   { parameters := b.parameters ++ iso.2 ++ cnd.2,
     assumptions := b.assumptions ++ [isolationNote] })

/-! ## Execution Gateway (`QueryExecutor.execute` and
`fix_query_executor_execute`)

The store side effects are modelled by an explicit oracle record
`StoreBehavior` describing what the borrowed connection does on this
call: the outcome of `cursor.execute`, the declared columns and fetched
rows of a `SELECT`, `cursor.rowcount`, the outcome of
`connection.commit()`, and whether `connection.rollback()` raises.
Exceptions are modelled as `Except.error` escaping the call; values are
modelled as strings.  `connection.cursor()` is modelled as succeeding
(its failure modes are not exercised by any claim), the debug `print`
calls of the fixed variant are side-effect free and dropped, and the
extra `debug_info` key of its error dictionary is not modelled.  The
trace fields record which connection operations were performed and what
was passed to `cursor.execute`. -/

/-- Outcome of a store operation: normal return, a raised
`sqlite3.Error`, or any other raised exception. -/
inductive StoreOutcome where
  | ok
  | sqliteErr (msg : String)
  | otherErr (msg : String)
deriving DecidableEq, Repr

/-- Behaviour of the borrowed connection during one call. -/
structure StoreBehavior where
  execOutcome : StoreOutcome
  columns : List String
  rows : List (List String)
  rowcount : Int
  commitOutcome : StoreOutcome
  rollbackOk : Bool
  rollbackErrMsg : String
deriving DecidableEq, Repr

/-- The Python `parameters` argument: `None`, a bare scalar, or a list. -/
inductive PyParams where
  | noneP
  | scalar (v : String)
  | listP (vs : List String)
deriving DecidableEq, Repr

/-- Python truthiness of the `parameters` argument (`None`, the empty
string and the empty list are falsy). -/
def paramsTruthy : PyParams → Bool
  | .noneP => false
  | .scalar v => !(v == "")
  | .listP vs => !vs.isEmpty

/-- The result dictionary of `execute`; keys a branch does not set are
`none`.  `data` rows are the `dict(zip(columns, row))` mappings. -/
structure ExecutionResult where
  success : Bool
  data : Option (List (List (String × String)))
  error : Option String
  rows_affected : Option Int
deriving DecidableEq, Repr

deriving instance DecidableEq for Except

/-- One observed call of an execute variant: the returned dictionary (or
the message of an exception that escaped the method), and a trace of the
connection operations performed. -/
structure ExecCall where
  result : Except String ExecutionResult
  rolledBack : Bool
  committed : Bool
  boundParams : Option PyParams
  cursorClosed : Bool
deriving DecidableEq, Repr

/-- Python `sql_query.strip().upper().startswith('SELECT')`. -/
def isSelect (sql : String) : Bool :=
  "SELECT".data.isPrefixOf (pyUpper (pyStrip sql)).data

/-- The `data` rows of a successful `SELECT`. -/
def selectData (beh : StoreBehavior) : List (List (String × String)) :=
  beh.rows.map (fun row => beh.columns.zip row)

/-- `QueryExecutor.execute` (lines 282-353): validate, require a
connection, run the statement, fetch or commit, and convert store
errors; the `except sqlite3.Error` handler calls `connection.rollback()`
without shielding it, so a raised rollback escapes the method (after the
`finally` block has closed the cursor). -/
def execute (beh : StoreBehavior) (sql : String) (connPresent : Bool)
    (params : PyParams) : ExecCall :=
  let validation := _validate_query sql
  if !validation.safe then
    ⟨.ok ⟨false, none, validation.reason, none⟩, false, false, none, false⟩
  else if !connPresent then
    ⟨.ok ⟨false, none, some "No database connection available", none⟩, false, false, none, false⟩
  else
    let bound := if paramsTruthy params then some params else some PyParams.noneP
    let onSqliteErr : String → ExecCall := fun m =>
      if beh.rollbackOk then
        ⟨.ok ⟨false, none, some ("Database error: " ++ m), none⟩, true, false, bound, true⟩
      else
        ⟨.error beh.rollbackErrMsg, true, false, bound, true⟩
    match beh.execOutcome with
    | .sqliteErr m => onSqliteErr m
    | .otherErr m =>
      ⟨.ok ⟨false, none, some ("Unexpected error: " ++ m), none⟩, false, false, bound, true⟩
    | .ok =>
      if isSelect sql then
        ⟨.ok ⟨true, some (selectData beh), none, some ((selectData beh).length : Int)⟩,
         false, false, bound, true⟩
      else
        match beh.commitOutcome with
        | .ok =>
          ⟨.ok ⟨true, none, none, some beh.rowcount⟩, false, true, bound, true⟩
        | .sqliteErr m => onSqliteErr m
        | .otherErr m =>
          ⟨.ok ⟨false, none, some ("Unexpected error: " ++ m), none⟩, false, false, bound, true⟩

/-- `fix_query_executor_execute` (lines 56-146): same gateway, but a
bare scalar `parameters` is normalised to a one-element list before
binding, every exception (not only `sqlite3.Error`) is converted to a
`Database error:` result, and the rollback attempt is wrapped in
`try/except: pass`, so a rollback failure never escapes. -/
def fix_query_executor_execute (beh : StoreBehavior) (sql : String)
    (connPresent : Bool) (params : PyParams) : ExecCall :=
  let validation := _validate_query sql
  if !validation.safe then
    ⟨.ok ⟨false, none, validation.reason, none⟩, false, false, none, false⟩
  else if !connPresent then
    ⟨.ok ⟨false, none, some "No database connection available", none⟩, false, false, none, false⟩
  else
    let bound :=
      if paramsTruthy params then
        some (match params with
              | .listP vs => PyParams.listP vs
              | .scalar v => PyParams.listP [v]
              | .noneP => PyParams.listP [])
      else some PyParams.noneP
    let onErr : String → ExecCall := fun m =>
      ⟨.ok ⟨false, none, some ("Database error: " ++ m), none⟩, true, false, bound, true⟩
    match beh.execOutcome with
    | .sqliteErr m => onErr m
    | .otherErr m => onErr m
    | .ok =>
      if isSelect sql then
        ⟨.ok ⟨true, some (selectData beh), none, some ((selectData beh).length : Int)⟩,
         false, false, bound, true⟩
      else
        match beh.commitOutcome with
        | .ok =>
          ⟨.ok ⟨true, none, none, some beh.rowcount⟩, false, true, bound, true⟩
        | .sqliteErr m => onErr m
        | .otherErr m => onErr m

/-! ## Derived views and concrete instantiations used by the theorems -/

/-- Number of `?` placeholder characters in a piece of SQL text. -/
def countQ (s : String) : Nat := s.data.countP (fun c => c == '?')

/-- The isolation predicates of a build, in emission order. -/
def isoPreds (parsed : ParsedQuery) (schema : Option Schema) : List String :=
  ((tablesWithFilters schema parsed.tables).map (fun t => (isoEmit parsed t).1)).flatten

/-- The parameters bound by the isolation predicates, in emission order. -/
def isoParams (parsed : ParsedQuery) (schema : Option Schema) : List String :=
  ((tablesWithFilters schema parsed.tables).map (fun t => (isoEmit parsed t).2)).flatten

/-- The predicates translated from `parsed.conditions`, in list order. -/
def condPreds (dc : DateCond) (ft : FindTbl) (schema : Option Schema)
    (parsed : ParsedQuery) : List String :=
  (parsed.conditions.map (fun c => (condEmit dc ft schema parsed c).1)).flatten

/-- The parameters appended while translating `parsed.conditions`. -/
def condParams (dc : DateCond) (ft : FindTbl) (schema : Option Schema)
    (parsed : ParsedQuery) : List String :=
  (parsed.conditions.map (fun c => (condEmit dc ft schema parsed c).2)).flatten

/-- Modelled from the spec: the spec's trigger condition for the
multiple-statement check, "after string-literal stripping, a `;`
appears anywhere that is not exactly the final character after trimming
whitespace", i.e. a semicolon occurs among all but the last character
of the trimmed stripped text.  Stated only to compare the spec's words
with what `_has_multiple_statements` actually tests. -/
def spec_semicolon_misplaced (s : String) : Bool :=
  ((pyStrip (_remove_string_literals s)).data.dropLast).contains ';'

/-- A date-condition expander that never produces a clause (concrete
instantiation for witnesses). -/
def dcNone : DateCond := fun _ => none

/-- A column-table resolver that never resolves (concrete instantiation
for witnesses). -/
def ftNone : FindTbl := fun _ _ _ => none

/-- Store behaviour where `cursor.execute` raises a `sqlite3.Error` and
the subsequent `connection.rollback()` itself raises. -/
def behRollbackFail : StoreBehavior :=
  ⟨.sqliteErr "disk I/O error", [], [], 0, .ok, false, "cannot rollback"⟩

/-- Store behaviour of a successful one-row `SELECT`. -/
def behSelectOk : StoreBehavior := ⟨.ok, ["a"], [["1"]], -1, .ok, true, ""⟩

/-! ## Helper lemmas -/

theorem foldl_emit {α : Type} (f : α → List String × List String) (l : List α)
    (a b : List String) :
    l.foldl (fun acc c => (acc.1 ++ (f c).1, acc.2 ++ (f c).2)) (a, b)
      = (a ++ (l.map (fun c => (f c).1)).flatten,
         b ++ (l.map (fun c => (f c).2)).flatten) := by
  induction l generalizing a b with
  | nil => simp
  | cons x xs ih => simp [List.foldl_cons, ih, List.append_assoc]

/-- The builder call, decomposed into its emission-ordered parts. -/
theorem build_decomp (dc : DateCond) (ft : FindTbl) (schema : Option Schema)
    (parsed : ParsedQuery) (b : Builder) :
    fix_build_where_clause dc ft schema parsed b
      = (if (isoPreds parsed schema ++ condPreds dc ft schema parsed).isEmpty then ""
         else "WHERE " ++ pyJoin " AND " (isoPreds parsed schema ++ condPreds dc ft schema parsed),
         ⟨b.parameters ++ isoParams parsed schema ++ condParams dc ft schema parsed,
          b.assumptions ++ [isolationNote]⟩) := by
  simp only [fix_build_where_clause]
  rw [foldl_emit (isoEmit parsed), foldl_emit (condEmit dc ft schema parsed)]
  simp [isoPreds, isoParams, condPreds, condParams]

theorem countQ_append (a b : String) : countQ (a ++ b) = countQ a + countQ b := by
  simp [countQ, String.data_append]

theorem countQ_pyJoin (sep : String) (hsep : countQ sep = 0) (l : List String) :
    countQ (pyJoin sep l) = (l.map countQ).sum := by
  induction l with
  | nil => simp [pyJoin, countQ]
  | cons a t ih =>
    cases t with
    | nil => simp [pyJoin]
    | cons x xs =>
      simp only [pyJoin, countQ_append, hsep, List.map_cons, List.sum_cons] at ih ⊢
      omega

theorem pyJoin_two_head (sep a b : String) (l : List String) :
    ∃ r, pyJoin sep (a :: b :: l) = a ++ sep ++ b ++ r := by
  cases l with
  | nil => exact ⟨"", by simp [pyJoin]⟩
  | cons x xs =>
    refine ⟨sep ++ pyJoin sep (x :: xs), ?_⟩
    simp only [pyJoin]
    simp [String.append_assoc]

/-! ## Claim theorems -/

/-- C10: every call to `fix_build_where_clause` appends exactly one
audit note to the builder's assumptions list, even when no table is
filterable and no tenant-isolation predicate was emitted — the note is
recorded unconditionally, outside the per-table loop. -/
theorem c10_assumption_note (dc : DateCond) (ft : FindTbl) (schema : Option Schema)
    (parsed : ParsedQuery) (b : Builder) :
    (fix_build_where_clause dc ft schema parsed b).2.assumptions
      = b.assumptions ++ [isolationNote] := by
  rw [build_decomp]

/-- C4: for a single-table `ParsedQuery` whose table is filterable, with
user filters `u1`/`c1` and no conditions, the builder returns exactly
`WHERE user_id = ? AND company_name = ?` (unqualified, as only one table
is present) and its parameter list is `["u1", "c1"]`. -/
theorem c4_single_table_where (dc : DateCond) (ft : FindTbl) (t : String)
    (s : Schema) (cols : List String)
    (hlook : lookupTable s t = some cols)
    (hu : "user_id" ∈ cols)
    (hc : "company_name" ∈ cols) :
    fix_build_where_clause dc ft (some s) ⟨[t], [], "u1", "c1"⟩ emptyBuilder
      = ("WHERE user_id = ? AND company_name = ?", ⟨["u1", "c1"], [isolationNote]⟩) := by
  have hne : s.isEmpty = false := by
    cases s with
    | nil => simp [lookupTable] at hlook
    | cons a l => rfl
  have htwf : tablesWithFilters (some s) [t] = [t] := by
    simp [tablesWithFilters, hne, hlook, hu, hc]
  rw [build_decomp]
  have hiso : isoPreds ⟨[t], [], "u1", "c1"⟩ (some s) = ["user_id = ?", "company_name = ?"] := by
    simp [isoPreds, htwf, isoEmit]
  have hisoP : isoParams ⟨[t], [], "u1", "c1"⟩ (some s) = ["u1", "c1"] := by
    simp [isoParams, htwf, isoEmit]
  rw [hiso, hisoP]
  simp only [condPreds, condParams, List.map_nil, List.flatten_nil, List.append_nil,
    emptyBuilder]
  decide

/-- Witness for C4 at a concrete filterable table and schema. -/
theorem c4_witness :
    (lookupTable [("mst_employee", ["user_id", "company_name", "name"])] "mst_employee"
        = some ["user_id", "company_name", "name"]
      ∧ "user_id" ∈ (["user_id", "company_name", "name"] : List String)
      ∧ "company_name" ∈ (["user_id", "company_name", "name"] : List String))
    ∧ fix_build_where_clause dcNone ftNone
        (some [("mst_employee", ["user_id", "company_name", "name"])])
        ⟨["mst_employee"], [], "u1", "c1"⟩ emptyBuilder
      = ("WHERE user_id = ? AND company_name = ?", ⟨["u1", "c1"], [isolationNote]⟩) :=
  ⟨⟨by decide, by decide, by decide⟩,
   c4_single_table_where dcNone ftNone "mst_employee"
     [("mst_employee", ["user_id", "company_name", "name"])]
     ["user_id", "company_name", "name"] (by decide) (by decide) (by decide)⟩

/-- C5: when schema metadata is unavailable, the builder treats exactly
the first table of `parsed.tables` as filterable (no table when the
table list is empty), so a single-table query still receives its two
tenant-isolation predicates — and their two parameters first — in
schema-less degraded mode. -/
theorem c5_schema_fallback :
    (∀ ts : List String, tablesWithFilters none ts = ts.take 1)
    ∧ (∀ (dc : DateCond) (ft : FindTbl) (t u c : String) (conds : List Condition),
        ∃ restS restP,
          (fix_build_where_clause dc ft none ⟨[t], conds, u, c⟩ emptyBuilder).1
            = "WHERE user_id = ? AND company_name = ?" ++ restS
          ∧ (fix_build_where_clause dc ft none ⟨[t], conds, u, c⟩ emptyBuilder).2.parameters
            = u :: c :: restP) := by
  constructor
  · intro ts; rfl
  · intro dc ft t u c conds
    rw [build_decomp]
    have hiso : isoPreds ⟨[t], conds, u, c⟩ none = ["user_id = ?", "company_name = ?"] := by
      simp [isoPreds, tablesWithFilters, isoEmit]
    have hisoP : isoParams ⟨[t], conds, u, c⟩ none = [u, c] := by
      simp [isoParams, tablesWithFilters, isoEmit]
    rw [hiso, hisoP]
    obtain ⟨r, hr⟩ :=
      pyJoin_two_head " AND " "user_id = ?" "company_name = ?"
        (condPreds dc ft none ⟨[t], conds, u, c⟩)
    refine ⟨r, condParams dc ft none ⟨[t], conds, u, c⟩, ?_, by simp [emptyBuilder]⟩
    simp only [List.cons_append, List.nil_append, List.isEmpty_cons, Bool.false_eq_true,
      if_false, hr]
    rw [← String.append_assoc]
    congr 1

/-- C8: any SQL text whose upper-cased form contains a denylisted
keyword as a substring is rejected by `_validate_query`, with a reason
naming the keyword the scan detected. -/
theorem c8_dangerous_keyword (s kw : String)
    (hkw : kw ∈ dangerous_keywords)
    (hsub : containsSub (pyUpper s).data kw.data = true) :
    (_validate_query s).safe = false
    ∧ ∃ kw2 ∈ dangerous_keywords,
        containsSub (pyUpper s).data kw2.data = true
        ∧ (_validate_query s).reason
            = some ("Query contains potentially dangerous keyword: " ++ kw2) := by
  have hex : (dangerous_keywords.find? (fun k => containsSub (pyUpper s).data k.data)).isSome :=
    List.find?_isSome.mpr ⟨kw, hkw, hsub⟩
  obtain ⟨kw2, hfind⟩ := Option.isSome_iff_exists.mp hex
  have hm := List.mem_of_find?_eq_some hfind
  have hp := List.find?_some hfind
  simp only [_validate_query]
  rw [hfind]
  exact ⟨rfl, kw2, hm, hp, rfl⟩

/-- Witness for C8: a text containing the keyword `EXEC`. -/
theorem c8_witness :
    ("EXEC" ∈ dangerous_keywords
      ∧ containsSub (pyUpper "select exec(x)").data ("EXEC" : String).data = true)
    ∧ ((_validate_query "select exec(x)").safe = false
      ∧ ∃ kw2 ∈ dangerous_keywords,
          containsSub (pyUpper "select exec(x)").data kw2.data = true
          ∧ (_validate_query "select exec(x)").reason
              = some ("Query contains potentially dangerous keyword: " ++ kw2)) :=
  ⟨⟨by decide, by decide⟩, c8_dangerous_keyword "select exec(x)" "EXEC" (by decide) (by decide)⟩

/-- C9: any SQL text in which either unescaped-quote count (total quote
occurrences minus occurrences of the backslash-escaped sequence) is odd
is rejected by `_validate_query`. -/
theorem c9_unbalanced_quotes (s : String)
    (h : ((countSub [squote] s.data : Int) - (countSub [bslash, squote] s.data : Int)) % 2 = 1
       ∨ ((countSub [dquote] s.data : Int) - (countSub [bslash, dquote] s.data : Int)) % 2 = 1) :
    (_validate_query s).safe = false := by
  have hb : _balanced_quotes s = false := by
    simp only [_balanced_quotes]
    rcases h with h | h
    · rw [h]; simp
    · rw [h]; simp
  simp only [_validate_query]
  cases hfind : dangerous_keywords.find? (fun k => containsSub (pyUpper s).data k.data) with
  | some kw => rfl
  | none =>
    rw [hb]
    split
    · rfl
    · split
      · rfl
      · simp only [Bool.not_false, if_true]
        split <;> rfl

/-- Witness for C9: a text with a single (unescaped) double quote. -/
theorem c9_witness :
    ((countSub [dquote] ("x\"y" : String).data : Int)
        - (countSub [bslash, dquote] ("x\"y" : String).data : Int)) % 2 = 1
    ∧ (_validate_query "x\"y").safe = false :=
  ⟨by decide, c9_unbalanced_quotes "x\"y" (Or.inr (by decide))⟩

/-- C2 (amended): after literal stripping, the multiple-statement check
rejects exactly when a `;` remains and the trimmed stripped text does
not end with `;`; hence `_validate_query` is unsafe whenever a `;`
remains and the text does not end with `;`, and the check passes
whenever no `;` survives stripping or the trimmed stripped text ends
with `;` — even if another, interior `;` also survives. -/
theorem c2_semicolon_amended :
    (∀ s : String,
        (_remove_string_literals s).data.contains ';' = true
        → endsWithSemi (pyStrip (_remove_string_literals s)) = false
        → (_validate_query s).safe = false)
    ∧ (∀ s : String,
        ((_remove_string_literals s).data.contains ';' = false
          ∨ endsWithSemi (pyStrip (_remove_string_literals s)) = true)
        → _has_multiple_statements s = false) := by
  constructor
  · intro s h1 h2
    have hm : _has_multiple_statements s = true := by
      simp only [_has_multiple_statements]
      rw [h1, h2]
      rfl
    simp only [_validate_query]
    cases hfind : dangerous_keywords.find? (fun k => containsSub (pyUpper s).data k.data) with
    | some kw => rfl
    | none =>
      rw [hm]
      rfl
  · intro s h
    simp only [_has_multiple_statements]
    rcases h with h | h
    · rw [h]; rfl
    · rw [h]; simp

/-- Witness for C2's amended theorem: an interior semicolon with no
trailing semicolon is rejected. -/
theorem c2_witness :
    ((_remove_string_literals "SELECT 1; SELECT 2").data.contains ';' = true
      ∧ endsWithSemi (pyStrip (_remove_string_literals "SELECT 1; SELECT 2")) = false)
    ∧ (_validate_query "SELECT 1; SELECT 2").safe = false :=
  ⟨⟨by decide, by decide⟩, c2_semicolon_amended.1 "SELECT 1; SELECT 2" (by decide) (by decide)⟩

/-- Counterexample for C2 as stated: `SELECT 1; SELECT 2;` has a
semicolon that is not the final character of the trimmed stripped text
(the spec's trigger condition), yet the validator accepts it, because
the code only tests whether the stripped text ends with `;`. -/
theorem c2_counterexample :
    spec_semicolon_misplaced "SELECT 1; SELECT 2;" = true
    ∧ _validate_query "SELECT 1; SELECT 2;" = ⟨true, none⟩ := by
  constructor
  · decide
  · decide

theorem where_and_chain (x : String) :
    "WHERE " ++ pyJoin " AND " ["user_id = ?", "company_name = ?", x]
      = "WHERE user_id = ? AND company_name = ? AND " ++ x := by
  simp only [pyJoin]
  rw [← String.append_assoc, ← String.append_assoc]
  congr 1

/-- C6 (amended): for a `BETWEEN` condition whose value contains
`" and "` case-insensitively, the builder emits
`<field> BETWEEN ? AND ?` and appends exactly two parameters — the
trimmed low and high bounds, in order, of the *lower-cased* value (the
code splits `value.lower()`, so any letters in the bounds are emitted
lower-cased); otherwise it falls back to `<field> BETWEEN ?` with the
whole (unmodified) value as one parameter. -/
theorem c6_between_amended (dc : DateCond) (ft : FindTbl) (t u cn f v : String) :
    (containsSub (pyLower v).data " and ".data = true
      → fix_build_where_clause dc ft none ⟨[t], [⟨f, "BETWEEN", v⟩], u, cn⟩ emptyBuilder
          = ("WHERE user_id = ? AND company_name = ? AND " ++ (f ++ " BETWEEN ? AND ?"),
             ⟨[u, cn, pyStrip ((pySplit " and " (pyLower v)).getD 0 ""),
               pyStrip ((pySplit " and " (pyLower v)).getD 1 "")], [isolationNote]⟩))
    ∧ (containsSub (pyLower v).data " and ".data = false
      → fix_build_where_clause dc ft none ⟨[t], [⟨f, "BETWEEN", v⟩], u, cn⟩ emptyBuilder
          = ("WHERE user_id = ? AND company_name = ? AND " ++ (f ++ " BETWEEN ?"),
             ⟨[u, cn, v], [isolationNote]⟩)) := by
  have hiso : isoPreds ⟨[t], [⟨f, "BETWEEN", v⟩], u, cn⟩ none
      = ["user_id = ?", "company_name = ?"] := by
    simp [isoPreds, tablesWithFilters, isoEmit]
  have hisoP : isoParams ⟨[t], [⟨f, "BETWEEN", v⟩], u, cn⟩ none = [u, cn] := by
    simp [isoParams, tablesWithFilters, isoEmit]
  constructor
  · intro h
    rw [build_decomp, hiso, hisoP]
    have hcnd : condPreds dc ft none ⟨[t], [⟨f, "BETWEEN", v⟩], u, cn⟩
        = [f ++ " BETWEEN ? AND ?"] := by
      simp [condPreds, condEmit, resolveField, h]
    have hcndP : condParams dc ft none ⟨[t], [⟨f, "BETWEEN", v⟩], u, cn⟩
        = [pyStrip ((pySplit " and " (pyLower v)).getD 0 ""),
           pyStrip ((pySplit " and " (pyLower v)).getD 1 "")] := by
      simp [condParams, condEmit, resolveField, h]
    rw [hcnd, hcndP]
    simp only [List.cons_append, List.nil_append, List.isEmpty_cons, Bool.false_eq_true,
      if_false]
    rw [where_and_chain]
    simp [emptyBuilder]
  · intro h
    rw [build_decomp, hiso, hisoP]
    have hcnd : condPreds dc ft none ⟨[t], [⟨f, "BETWEEN", v⟩], u, cn⟩
        = [f ++ " BETWEEN ?"] := by
      simp only [condPreds, condEmit, resolveField, h]
      simp [h]
      rw [String.append_assoc, String.append_assoc]
      congr 1
    have hcndP : condParams dc ft none ⟨[t], [⟨f, "BETWEEN", v⟩], u, cn⟩ = [v] := by
      simp [condParams, condEmit, resolveField, h]
    rw [hcnd, hcndP]
    simp only [List.cons_append, List.nil_append, List.isEmpty_cons, Bool.false_eq_true,
      if_false]
    rw [where_and_chain]
    simp [emptyBuilder]

/-- Witness for C6's amended theorem at the spec's own example, value
`18 and 30`, whose bounds are unaffected by lower-casing. -/
theorem c6_witness :
    containsSub (pyLower "18 and 30").data " and ".data = true
    ∧ fix_build_where_clause dcNone ftNone none
        ⟨["t"], [⟨"age", "BETWEEN", "18 and 30"⟩], "u", "c"⟩ emptyBuilder
      = ("WHERE user_id = ? AND company_name = ? AND " ++ ("age" ++ " BETWEEN ? AND ?"),
         ⟨["u", "c", pyStrip ((pySplit " and " (pyLower "18 and 30")).getD 0 ""),
           pyStrip ((pySplit " and " (pyLower "18 and 30")).getD 1 "")], [isolationNote]⟩) :=
  ⟨by decide, (c6_between_amended dcNone ftNone "t" "u" "c" "age" "18 and 30").1 (by decide)⟩

/-- Counterexample for C6 as stated: for value `A and B` the claim's
reading gives parameters `["A", "B"]` (the bounds as they appeared in
the value), but the code appends the lower-cased bounds `["a", "b"]`. -/
theorem c6_counterexample :
    (fix_build_where_clause dcNone ftNone none
        ⟨["t"], [⟨"x", "BETWEEN", "A and B"⟩], "u", "c"⟩ emptyBuilder).2.parameters
      = ["u", "c", "a", "b"]
    ∧ (["u", "c", "a", "b"] : List String) ≠ ["u", "c", "A", "B"] := by
  constructor
  · decide
  · decide

theorem tablesWithFilters_subset (schema : Option Schema) (ts : List String) :
    ∀ t ∈ tablesWithFilters schema ts, t ∈ ts := by
  intro t ht
  cases schema with
  | none =>
    simp only [tablesWithFilters] at ht
    exact List.take_subset _ _ ht
  | some s =>
    simp only [tablesWithFilters] at ht
    by_cases hs : s.isEmpty
    · rw [if_pos hs] at ht
      exact List.take_subset _ _ ht
    · rw [if_neg hs] at ht
      exact (List.mem_filter.mp ht).1

theorem isoEmit_balanced (parsed : ParsedQuery) (t : String) (ht : countQ t = 0) :
    ((isoEmit parsed t).1.map countQ).sum = (isoEmit parsed t).2.length := by
  have h1 : countQ ".user_id = ?" = 1 := by decide
  have h2 : countQ ".company_name = ?" = 1 := by decide
  have h3 : countQ "user_id = ?" = 1 := by decide
  have h4 : countQ "company_name = ?" = 1 := by decide
  unfold isoEmit
  split <;> simp [countQ_append, ht, h1, h2, h3, h4]

theorem countQ_resolveField (ft : FindTbl) (schema : Option Schema)
    (parsed : ParsedQuery) (c : Condition)
    (hf : countQ c.field = 0)
    (hft : ∀ fl ts sch tb, ft fl ts sch = some tb → countQ tb = 0) :
    countQ (resolveField ft schema parsed c) = 0 := by
  have hdot : countQ "." = 0 := by decide
  unfold resolveField
  split
  · cases hftc : ft c.field parsed.tables schema with
    | none => exact hf
    | some tb =>
      by_cases he : tb.isEmpty
      · simp [he, hf]
      · simp [he, countQ_append, hft _ _ _ _ hftc, hdot, hf]
  · exact hf

theorem countQ_placeholders {α : Type} (l : List α) :
    countQ (pyJoin ", " (l.map (fun _ => "?"))) = l.length := by
  have hq : countQ "?" = 1 := by decide
  have hcs : countQ ", " = 0 := by decide
  induction l with
  | nil =>
    simp only [List.map_nil, pyJoin, List.length_nil]
    decide
  | cons a t ih =>
    cases t with
    | nil =>
      simp only [List.map_cons, List.map_nil, pyJoin, List.length_cons, List.length_nil]
      decide
    | cons b t2 =>
      simp only [List.map_cons, pyJoin, countQ_append, hq, hcs, List.length_cons] at ih ⊢
      omega

theorem condEmit_balanced (dc : DateCond) (ft : FindTbl) (schema : Option Schema)
    (parsed : ParsedQuery) (c : Condition)
    (hf : countQ c.field = 0) (hop : countQ c.operator = 0)
    (hraw : c.operator = "raw_condition" → countQ c.value = 0)
    (hdc : ∀ d, dc c = some d → countQ d = 0)
    (hft : ∀ fl ts sch tb, ft fl ts sch = some tb → countQ tb = 0) :
    ((condEmit dc ft schema parsed c).1.map countQ).sum
      = (condEmit dc ft schema parsed c).2.length := by
  have hF := countQ_resolveField ft schema parsed c hf hft
  have hsp : countQ " " = 0 := by decide
  have hlike : countQ " LIKE ?" = 1 := by decide
  have hinl : countQ " IN (" = 0 := by decide
  have hinr : countQ ")" = 0 := by decide
  have hbet : countQ " BETWEEN ? AND ?" = 2 := by decide
  have hq2 : countQ " ?" = 1 := by decide
  simp only [condEmit]
  split_ifs with h1 h2 h3 h4 h5 h6 h7
  · cases hdcc : dc c with
    | none => simp
    | some d =>
      by_cases he : d.isEmpty
      · simp [he]
      · simp [he, hdc d hdcc]
  · simp [hraw (eq_of_beq h2)]
  · simp [countQ_append, hF, hsp, hop]
  · simp [countQ_append, hF, hlike]
  · have hph := countQ_placeholders ((pySplit "," c.value).map pyStrip)
    simp only [List.map_map, List.length_map] at hph
    simp [countQ_append, hF, hinl, hinr, hph]
  · simp [countQ_append, hF, hbet]
  · simp [countQ_append, hF, hsp, hop, hq2]
  · simp [countQ_append, hF, hsp, hop, hq2]

theorem condEmit_nil (dc : DateCond) (ft : FindTbl) (schema : Option Schema)
    (parsed : ParsedQuery) (c : Condition) :
    (condEmit dc ft schema parsed c).1 = [] → (condEmit dc ft schema parsed c).2 = [] := by
  simp only [condEmit]
  split_ifs with h1 h2 h3 h4 h5 h6 h7
  · cases dc c with
    | none => intro _; rfl
    | some d =>
      by_cases he : d.isEmpty
      · intro _
        simp [he]
      · simp [he]
  · intro hx
    simp at hx
  · intro hx
    simp at hx
  · intro hx
    simp at hx
  · intro hx
    simp at hx
  · intro hx
    simp at hx
  · intro hx
    simp at hx
  · intro hx
    simp at hx

/-- C1 (amended): provided no `?` character occurs inside table names,
condition fields, condition operators, raw-condition values, or the
strings returned by the external date-condition and column-table
helpers, the builder's WHERE text is the `AND`-join of the
tenant-isolation predicates (user_id then company_name per filterable
table, in table-list order) followed by the predicates translated from
`parsed.conditions` in list order; the parameters are appended in
exactly that emission order, and the number of `?` placeholders in the
emitted text equals the number of appended parameters, per emitted
predicate group.  (A raw-condition value, field, operator, table name,
or helper result containing `?` injects a placeholder with no matching
parameter and breaks the alignment — see the counterexample.) -/
theorem c1_isolation_param_order (dc : DateCond) (ft : FindTbl) (schema : Option Schema)
    (parsed : ParsedQuery) (b : Builder)
    (hTables : ∀ t ∈ parsed.tables, countQ t = 0)
    (hField : ∀ c ∈ parsed.conditions, countQ c.field = 0)
    (hOp : ∀ c ∈ parsed.conditions, countQ c.operator = 0)
    (hRaw : ∀ c ∈ parsed.conditions, c.operator = "raw_condition" → countQ c.value = 0)
    (hDc : ∀ c d, dc c = some d → countQ d = 0)
    (hFt : ∀ fl ts sch tb, ft fl ts sch = some tb → countQ tb = 0) :
    (fix_build_where_clause dc ft schema parsed b).1
        = (if (isoPreds parsed schema ++ condPreds dc ft schema parsed).isEmpty then ""
           else "WHERE " ++ pyJoin " AND "
                  (isoPreds parsed schema ++ condPreds dc ft schema parsed))
    ∧ (fix_build_where_clause dc ft schema parsed b).2.parameters
        = b.parameters ++ isoParams parsed schema ++ condParams dc ft schema parsed
    ∧ countQ (fix_build_where_clause dc ft schema parsed b).1
        = (isoParams parsed schema).length + (condParams dc ft schema parsed).length
    ∧ (∀ t ∈ tablesWithFilters schema parsed.tables,
         ((isoEmit parsed t).1.map countQ).sum = (isoEmit parsed t).2.length)
    ∧ (∀ c ∈ parsed.conditions,
         ((condEmit dc ft schema parsed c).1.map countQ).sum
           = (condEmit dc ft schema parsed c).2.length) := by
  have hIso : ∀ t ∈ tablesWithFilters schema parsed.tables,
      ((isoEmit parsed t).1.map countQ).sum = (isoEmit parsed t).2.length := fun t ht =>
    isoEmit_balanced parsed t (hTables t (tablesWithFilters_subset schema parsed.tables t ht))
  have hCond : ∀ c ∈ parsed.conditions,
      ((condEmit dc ft schema parsed c).1.map countQ).sum
        = (condEmit dc ft schema parsed c).2.length := fun c hc =>
    condEmit_balanced dc ft schema parsed c (hField c hc) (hOp c hc) (hRaw c hc)
      (fun d => hDc c d) hFt
  refine ⟨?_, ?_, ?_, hIso, hCond⟩
  · rw [build_decomp]
  · rw [build_decomp]
  · rw [build_decomp]
    dsimp only
    by_cases hE : (isoPreds parsed schema ++ condPreds dc ft schema parsed).isEmpty
    · rw [if_pos hE]
      rw [List.isEmpty_iff, List.append_eq_nil] at hE
      have htwf : tablesWithFilters schema parsed.tables = [] := by
        have h1 := hE.1
        unfold isoPreds at h1
        rw [List.flatten_eq_nil_iff] at h1
        cases htw : tablesWithFilters schema parsed.tables with
        | nil => rfl
        | cons x xs =>
          exfalso
          have hx := h1 (isoEmit parsed x).1
            (by rw [htw]; exact List.mem_map_of_mem _ (by simp))
          unfold isoEmit at hx
          split at hx <;> simp at hx
      have hisoP : isoParams parsed schema = [] := by
        unfold isoParams
        rw [htwf]
        rfl
      have hcndP : condParams dc ft schema parsed = [] := by
        unfold condParams
        rw [List.flatten_eq_nil_iff]
        intro l hl
        obtain ⟨c, hc, rfl⟩ := List.mem_map.mp hl
        apply condEmit_nil
        have h2 := hE.2
        unfold condPreds at h2
        rw [List.flatten_eq_nil_iff] at h2
        exact h2 _ (List.mem_map_of_mem _ hc)
      rw [hisoP, hcndP]
      have h0 : countQ "" = 0 := by decide
      simp [h0]
    · rw [if_neg hE]
      have hAND : countQ " AND " = 0 := by decide
      have hW : countQ "WHERE " = 0 := by decide
      rw [countQ_append, countQ_pyJoin " AND " hAND, hW]
      rw [List.map_append, List.sum_append]
      have e1 : ((isoPreds parsed schema).map countQ).sum
          = (isoParams parsed schema).length := by
        unfold isoPreds isoParams
        rw [List.map_flatten, List.sum_flatten, List.length_flatten]
        rw [List.map_map, List.map_map, List.map_map]
        congr 1
        apply List.map_congr_left
        intro t ht
        simpa using hIso t ht
      have e2 : ((condPreds dc ft schema parsed).map countQ).sum
          = (condParams dc ft schema parsed).length := by
        unfold condPreds condParams
        rw [List.map_flatten, List.sum_flatten, List.length_flatten]
        rw [List.map_map, List.map_map, List.map_map]
        congr 1
        apply List.map_congr_left
        intro c hc
        simpa using hCond c hc
      rw [e1, e2]
      omega

/-- Counterexample for C1 as stated: a `raw_condition` whose value
contains `?` yields three placeholders in the emitted text but only two
appended parameters, so the parameter list cannot be in the same order
as the placeholders. -/
theorem c1_counterexample :
    countQ (fix_build_where_clause dcNone ftNone (some [("t", ["user_id", "company_name"])])
        ⟨["t"], [⟨"x", "raw_condition", "status = ?"⟩], "u", "c"⟩ emptyBuilder).1 = 3
    ∧ ((fix_build_where_clause dcNone ftNone (some [("t", ["user_id", "company_name"])])
        ⟨["t"], [⟨"x", "raw_condition", "status = ?"⟩], "u", "c"⟩ emptyBuilder).2.parameters).length
      = 2
    ∧ (3 : Nat) ≠ 2 := by
  refine ⟨?_, ?_, ?_⟩ <;> decide

/-- Witness for C1's amended theorem at a concrete schema-aware query
with one ordinary comparison condition. -/
theorem c1_witness :
    ((∀ t ∈ (["mst_employee"] : List String), countQ t = 0)
      ∧ (∀ c ∈ ([⟨"age", ">", "21"⟩] : List Condition), countQ c.field = 0)
      ∧ (∀ c ∈ ([⟨"age", ">", "21"⟩] : List Condition), countQ c.operator = 0)
      ∧ (∀ c ∈ ([⟨"age", ">", "21"⟩] : List Condition),
          c.operator = "raw_condition" → countQ c.value = 0))
    ∧ countQ (fix_build_where_clause dcNone ftNone
          (some [("mst_employee", ["user_id", "company_name"])])
          ⟨["mst_employee"], [⟨"age", ">", "21"⟩], "u", "c"⟩ emptyBuilder).1
        = (isoParams ⟨["mst_employee"], [⟨"age", ">", "21"⟩], "u", "c"⟩
             (some [("mst_employee", ["user_id", "company_name"])])).length
          + (condParams dcNone ftNone (some [("mst_employee", ["user_id", "company_name"])])
               ⟨["mst_employee"], [⟨"age", ">", "21"⟩], "u", "c"⟩).length :=
  ⟨⟨by decide, by decide, by decide, by decide⟩,
   (c1_isolation_param_order dcNone ftNone
      (some [("mst_employee", ["user_id", "company_name"])])
      ⟨["mst_employee"], [⟨"age", ">", "21"⟩], "u", "c"⟩ emptyBuilder
      (by decide) (by decide) (by decide) (by decide)
      (fun c d h => nomatch h) (fun fl ts sch tb h => nomatch h)).2.2.1⟩

/-- C3: `QueryExecutor.execute` at the failing input — a store error
during `cursor.execute` followed by a failing `connection.rollback()` —
attempts the rollback but lets the rollback exception escape the method
instead of swallowing it (no result dictionary is returned), while the
repository's fixed variant `fix_query_executor_execute` swallows the
rollback failure and returns the wrapped store error as the claim and
the spec describe. -/
theorem c3_rollback_escalation :
    (execute behRollbackFail "SELECT 1" true PyParams.noneP).result
      = Except.error "cannot rollback"
    ∧ (execute behRollbackFail "SELECT 1" true PyParams.noneP).rolledBack = true
    ∧ (fix_query_executor_execute behRollbackFail "SELECT 1" true PyParams.noneP).result
      = Except.ok ⟨false, none, some "Database error: disk I/O error", none⟩ := by
  refine ⟨?_, ?_, ?_⟩ <;> decide

/-- C7: `QueryExecutor.execute` at the failing input — a bare truthy
scalar `parameters` argument — passes the scalar through to
`cursor.execute` unchanged instead of normalising it into a
single-element sequence; only the repository's fixed variant
`fix_query_executor_execute` wraps it into `['abc']` as the claim and
the spec describe. -/
theorem c7_scalar_passthrough :
    (execute behSelectOk "SELECT 1" true (PyParams.scalar "abc")).boundParams
      = some (PyParams.scalar "abc")
    ∧ (fix_query_executor_execute behSelectOk "SELECT 1" true (PyParams.scalar "abc")).boundParams
      = some (PyParams.listP ["abc"])
    ∧ PyParams.scalar "abc" ≠ PyParams.listP ["abc"] := by
  refine ⟨?_, ?_, ?_⟩ <;> decide

end SqlExec
